import Mathlib

/-!
# StayCircle booking workflow engine — verification development

Shallow embedding of the booking workflow engine of the StayCircle backend:
the reservation state machine (`src/app/routes/bookings.py`), payment
reconciliation (`src/app/payments.py`), the expiry sweeper
(`src/app/sweepers.py`) and the advisory lock (`src/app/locks.py`).

Modelling conventions:
- Dates and timestamps are integers (`Int`); durations are added directly
  (the hold window is measured in minutes, matching `HOLD_MINUTES`).
- The relational store is a `List Booking`; `dbGet` is the primary-key
  lookup, `updateRows` is an `UPDATE ... WHERE cond SET ...` statement.
- Each HTTP handler becomes a pure function returning a result constructor
  (one per distinct HTTP outcome / response body of the source) together
  with the database state after the call.  Mutating handlers take two
  database states: `db`, the state the handler's reads observe (the ORM
  session at read time), and `dbW`, the state the final write executes
  against (the database at commit time).  A sequential, race-free execution
  passes the same list for both; a concurrent interleaving is modelled by
  passing a `dbW` whose rows changed after the read.
- The Stripe payment provider is external: its observable reply is passed
  in as a `PiStatus` parameter; the deterministic offline fallbacks of
  `create_payment_intent` / `retrieve_client_secret` (the stripe-disabled
  branch of the source) supply the synthesized identifiers.
-/

namespace StayCircle

/-- Booking lifecycle status, the closed set of values stored in the
`status` string column of `bookings` (see `src/app/models.py`). -/
inductive BStatus
  | requested
  | pending_payment
  | confirmed
  | cancelled
  | cancelled_expired
  | declined
deriving DecidableEq, Repr

/-- A row of the `bookings` table (`models.Booking`).  The DB-managed
`created_at` / `updated_at` timestamps are omitted: no engine logic reads
them. -/
structure Booking where
  id : Nat
  property_id : Nat
  guest_id : Nat
  start_date : Int
  end_date : Int
  status : BStatus
  total_cents : Int
  currency : String
  payment_intent_id : Option String
  expires_at : Option Int
  cancel_reason : Option String
  version : Nat
deriving DecidableEq, Repr

/-- A row of the `properties` table (`models.Property`), restricted to the
fields the booking engine reads.  `owner_id` is nullable in the schema. -/
structure Property where
  id : Nat
  owner_id : Option Nat
  price_cents : Int
  requires_approval : Bool
deriving DecidableEq, Repr

/-- Caller role resolved by the auth dependency (`require_tenant`,
`require_landlord`, `get_current_user`). -/
inductive Role
  | tenant
  | landlord
deriving DecidableEq, Repr

/-- Primary-key lookup `db.get(models.Booking, booking_id)`. -/
def dbGet (db : List Booking) (bookingId : Nat) : Option Booking :=
  db.find? (fun b => b.id == bookingId)

/-- Primary-key lookup `db.get(models.Property, property_id)`. -/
def propGet (props : List Property) (propertyId : Nat) : Option Property :=
  props.find? (fun p => p.id == propertyId)

/-- One `UPDATE bookings SET <u> WHERE <c>`: apply `u` to every row satisfying
`c`, leave the rest untouched. -/
def updateRows (db : List Booking) (c : Booking → Bool) (u : Booking → Booking) :
    List Booking :=
  db.map (fun b => if c b then u b else b)

/-- Number of rows a conditional `UPDATE ... WHERE c` would affect. -/
def countRows (db : List Booking) (c : Booking → Bool) : Nat :=
  (db.filter c).length

/-- Python `(obj.version or 1)`: the null/zero guard applied before every
version bump in the source. -/
def verOr1 (v : Nat) : Nat :=
  if v = 0 then 1 else v

/-- Python `s or d` on an optional string column: `None` and the empty
string are falsy and are replaced by the default. -/
def strOr (s : Option String) (d : String) : String :=
  match s with
  | none => d
  | some t => if t = "" then d else t

/-- The `HOLD_MINUTES` environment default (`routes/bookings.py` line 22):
hold window in minutes for pending payments. -/
def HOLD_MINUTES : Int := 15

/-- Model of `_has_overlap` (`routes/bookings.py` lines 31-51): true when any
`confirmed` booking of the property overlaps `[s, e)`; the filter is
`NOT (existing.end_date <= s OR existing.start_date >= e)` and only
considers `status = 'confirmed'`. -/
def _has_overlap (db : List Booking) (propertyId : Nat) (s e : Int) : Bool :=
  db.any (fun b =>
    b.property_id == propertyId && b.status == BStatus.confirmed &&
      !(decide (b.end_date ≤ s) || decide (b.start_date ≥ e)))

/-- Model of `_has_confirmed_overlap` (`payments.py` lines 312-331): the payment
module's copy of the confirmed-overlap query, with the identical filter. -/
def _has_confirmed_overlap (db : List Booking) (propertyId : Nat) (s e : Int) : Bool :=
  db.any (fun b =>
    b.property_id == propertyId && b.status == BStatus.confirmed &&
      !(decide (b.end_date ≤ s) || decide (b.start_date ≥ e)))

/-- Model of `create_payment_intent` (`payments.py` lines 45-85), stripe-disabled
deterministic branch: synthesize `(pi_test_<id>, test_client_secret_<id>)`.
With Stripe enabled the identifiers come from the provider instead; the
engine only depends on the handle being present. -/
def create_payment_intent (booking_id : Nat) : String × String :=
  ("pi_test_" ++ toString booking_id, "test_client_secret_" ++ toString booking_id)

/-- Model of `retrieve_client_secret` (`payments.py` lines 88-103), stripe-disabled
deterministic branch. -/
def retrieve_client_secret (payment_intent_id : String) : String :=
  "test_client_secret_" ++ payment_intent_id

/-- The `next_action` discriminator returned by booking creation. -/
inductive NextAction
  | await_approval
  | pay (expires_at : Option Int) (client_secret : String)
deriving DecidableEq, Repr

/-- Outcomes of `create_booking`, one per HTTP response of the handler. -/
inductive CreateResult
  | invalidDates
  | propertyNotFound
  | busy
  | overlapConflict
  | created (booking : Booking) (next : NextAction)
deriving DecidableEq, Repr

/-- Model of `create_booking` (`routes/bookings.py` lines 60-155).  `locked` is the
boolean yielded by `redis_try_lock`; `newId` is the autoincrement id the
insert receives; `holdMinutes` is the `HOLD_MINUTES` configuration. -/
def create_booking (props : List Property) (db : List Booking)
    (userId propertyId : Nat) (s e : Int) (now : Int)
    (locked : Bool) (holdMinutes : Int) (newId : Nat) :
    CreateResult × List Booking :=
  if s ≥ e then (.invalidDates, db)
  else
    match propGet props propertyId with
    | none => (.propertyNotFound, db)
    | some prop =>
      if !locked then (.busy, db)
      else if _has_overlap db propertyId s e then (.overlapConflict, db)
      else
        let statusVal := if prop.requires_approval then BStatus.requested
                         else BStatus.pending_payment
        let expiresAt : Option Int :=
          if prop.requires_approval then none else some (now + holdMinutes)
        let obj : Booking :=
          { id := newId, property_id := propertyId, guest_id := userId,
            start_date := s, end_date := e, status := statusVal,
            total_cents := prop.price_cents * (e - s), currency := "USD",
            payment_intent_id := none, expires_at := expiresAt,
            cancel_reason := none, version := 1 }
        if statusVal = BStatus.pending_payment then
          let pi := create_payment_intent newId
          let obj2 := { obj with payment_intent_id := some pi.1 }
          (.created obj2 (.pay expiresAt pi.2), db ++ [obj2])
        else
          (.created obj .await_approval, db ++ [obj])

/-- Outcomes of `approve_booking`. -/
inductive ApproveResult
  | notFound
  | notAllowed
  | onlyRequested
  | busy
  | ok (booking : Booking)
deriving DecidableEq, Repr

/-- Model of `approve_booking` (`routes/bookings.py` lines 192-225).  The commit
writes the new status, hold deadline and bumped version back by row id,
with no version condition on the write. -/
def approve_booking (props : List Property) (db dbW : List Booking)
    (bookingId userId : Nat) (now : Int) (locked : Bool) (holdMinutes : Int) :
    ApproveResult × List Booking :=
  match dbGet db bookingId with
  | none => (.notFound, dbW)
  | some obj =>
    match propGet props obj.property_id with
    | none => (.notAllowed, dbW)
    | some prop =>
      if prop.owner_id ≠ some userId then (.notAllowed, dbW)
      else if obj.status ≠ BStatus.requested then (.onlyRequested, dbW)
      else if !locked then (.busy, dbW)
      else
        match dbGet (updateRows dbW (fun b => b.id == bookingId)
            (fun b => { b with status := BStatus.pending_payment,
                               expires_at := some (now + holdMinutes),
                               version := verOr1 obj.version + 1 })) bookingId with
        | some fresh =>
          (.ok fresh,
           updateRows dbW (fun b => b.id == bookingId)
             (fun b => { b with status := BStatus.pending_payment,
                                expires_at := some (now + holdMinutes),
                                version := verOr1 obj.version + 1 }))
        | none =>
          (.ok obj,
           updateRows dbW (fun b => b.id == bookingId)
             (fun b => { b with status := BStatus.pending_payment,
                                expires_at := some (now + holdMinutes),
                                version := verOr1 obj.version + 1 }))

/-- Outcomes of `decline_booking`. -/
inductive DeclineResult
  | notFound
  | notAllowed
  | onlyRequested
  | ok (booking : Booking)
deriving DecidableEq, Repr

/-- Model of `decline_booking` (`routes/bookings.py` lines 233-259).  Unconditional
write by row id, like approval. -/
def decline_booking (props : List Property) (db dbW : List Booking)
    (bookingId userId : Nat) : DeclineResult × List Booking :=
  match dbGet db bookingId with
  | none => (.notFound, dbW)
  | some obj =>
    match propGet props obj.property_id with
    | none => (.notAllowed, dbW)
    | some prop =>
      if prop.owner_id ≠ some userId then (.notAllowed, dbW)
      else if obj.status ≠ BStatus.requested then (.onlyRequested, dbW)
      else
        match dbGet (updateRows dbW (fun b => b.id == bookingId)
            (fun b => { b with status := BStatus.declined,
                               cancel_reason := some "declined",
                               version := verOr1 obj.version + 1 })) bookingId with
        | some fresh =>
          (.ok fresh,
           updateRows dbW (fun b => b.id == bookingId)
             (fun b => { b with status := BStatus.declined,
                                cancel_reason := some "declined",
                                version := verOr1 obj.version + 1 }))
        | none =>
          (.ok obj,
           updateRows dbW (fun b => b.id == bookingId)
             (fun b => { b with status := BStatus.declined,
                                cancel_reason := some "declined",
                                version := verOr1 obj.version + 1 }))

/-- Outcomes of `cancel_booking`. -/
inductive CancelResult
  | notFound
  | notAllowed
  | ok (booking : Booking)
deriving DecidableEq, Repr

/-- Authorization branch of `cancel_booking` (`routes/bookings.py` lines
276-285): a tenant may cancel their own booking, a landlord any booking on
a property they own. -/
def cancelAuthorized (props : List Property) (obj : Booking) (userId : Nat)
    (role : Role) : Bool :=
  match role with
  | Role.tenant => obj.guest_id == userId
  | Role.landlord =>
    match propGet props obj.property_id with
    | none => false
    | some prop => prop.owner_id == some userId

/-- Model of `cancel_booking` (`routes/bookings.py` lines 267-300).  The terminal
set guarding the idempotent short-circuit is exactly
`("cancelled", "cancelled_expired", "declined")`; any other status —
including `confirmed` — is mutated to `cancelled` with an unconditional
write by row id. -/
def cancel_booking (props : List Property) (db dbW : List Booking)
    (bookingId userId : Nat) (role : Role) : CancelResult × List Booking :=
  match dbGet db bookingId with
  | none => (.notFound, dbW)
  | some obj =>
    if !cancelAuthorized props obj userId role then (.notAllowed, dbW)
    else if obj.status = BStatus.cancelled ∨ obj.status = BStatus.cancelled_expired ∨
            obj.status = BStatus.declined then
      (.ok obj, dbW)
    else
      match dbGet (updateRows dbW (fun b => b.id == bookingId)
          (fun b => { b with status := BStatus.cancelled,
                             cancel_reason := some (strOr obj.cancel_reason "cancelled"),
                             version := verOr1 obj.version + 1 })) bookingId with
      | some fresh =>
        (.ok fresh,
         updateRows dbW (fun b => b.id == bookingId)
           (fun b => { b with status := BStatus.cancelled,
                              cancel_reason := some (strOr obj.cancel_reason "cancelled"),
                              version := verOr1 obj.version + 1 }))
      | none =>
        (.ok obj,
         updateRows dbW (fun b => b.id == bookingId)
           (fun b => { b with status := BStatus.cancelled,
                              cancel_reason := some (strOr obj.cancel_reason "cancelled"),
                              version := verOr1 obj.version + 1 }))

/-- Filter of the expiry sweep (`sweepers.py` lines 35-51): still
`pending_payment`, with a non-null hold deadline strictly before `now`;
the per-row guard inside the loop re-checks the same condition. -/
def sweepMatch (now : Int) (b : Booking) : Bool :=
  b.status == BStatus.pending_payment &&
    (match b.expires_at with
     | none => false
     | some d => decide (d < now))

/-- Model of `sweep_expired_bookings` (`sweepers.py` lines 14-67): mark every
matching row `cancelled_expired`, set `cancel_reason` to "expired" when it
was unset/empty, bump the version, and return the number of rows
considered. -/
def sweep_expired_bookings (db : List Booking) (now : Int) :
    Nat × List Booking :=
  ((db.filter (sweepMatch now)).length,
   updateRows db (sweepMatch now)
     (fun b => { b with status := BStatus.cancelled_expired,
                        cancel_reason := some (strOr b.cancel_reason "expired"),
                        version := verOr1 b.version + 1 }))

/-- Observable status of a Stripe PaymentIntent as read back by the
handlers (`retrieveStatus`). -/
inductive PiStatus
  | succeeded
  | processing
  | requires_action
  | requires_payment_method
  | requires_confirmation
  | canceled
  | unknown (s : String)
deriving DecidableEq, Repr

/-- The conditional finalize update shared by all three payment entry
points (`payments.py` lines 185-199, 276-290, 404-418):
`UPDATE bookings SET status='confirmed', version=current_version+1
 WHERE id=bookingId AND version=current_version AND status='pending_payment'`,
returning the number of affected rows together with the updated table. -/
def confirmUpdate (dbW : List Booking) (bookingId current_version : Nat) :
    Nat × List Booking :=
  (countRows dbW (fun b =>
     b.id == bookingId && b.version == current_version &&
       b.status == BStatus.pending_payment),
   updateRows dbW (fun b =>
     b.id == bookingId && b.version == current_version &&
       b.status == BStatus.pending_payment)
     (fun b => { b with status := BStatus.confirmed,
                        version := current_version + 1 }))

/-- Outcomes of `get_payment_info`. -/
inductive PayInfoResult
  | notFound
  | notAllowed
  | notPendingPayment
  | holdExpired
  | overlapConflict
  | alreadyPaid
  | info (booking_id : Nat) (client_secret : String) (expires_at : Int)
deriving DecidableEq, Repr

/-- Model of `get_payment_info` (`payments.py` lines 106-213).  `piStat` is the
status Stripe reports for an existing PaymentIntent (`none` models the
retrieve call raising).  In the `succeeded` branch the handler runs the
conditional finalize update, commits it when it affected a row and rolls
back otherwise, and in either case answers HTTP 400 "Booking already
paid" (`alreadyPaid`) without re-reading the record. -/
def get_payment_info (db dbW : List Booking) (bookingId userId : Nat)
    (now : Int) (stripeOn : Bool) (piStat : Option PiStatus) :
    PayInfoResult × List Booking :=
  match dbGet db bookingId with
  | none => (.notFound, dbW)
  | some booking =>
    if booking.guest_id ≠ userId then (.notAllowed, dbW)
    else if booking.status ≠ BStatus.pending_payment then (.notPendingPayment, dbW)
    else
      match booking.expires_at with
      | none => (.holdExpired, dbW)
      | some expiresAt =>
        if expiresAt ≤ now then (.holdExpired, dbW)
        else
          match booking.payment_intent_id with
          | none =>
            (.info booking.id (create_payment_intent booking.id).2 expiresAt,
             updateRows dbW (fun b => b.id == booking.id)
               (fun b => { b with
                 payment_intent_id := some (create_payment_intent booking.id).1 }))
          | some piId =>
            if stripeOn then
              match piStat with
              | some PiStatus.canceled =>
                (.info booking.id (create_payment_intent booking.id).2 expiresAt,
                 updateRows dbW (fun b => b.id == booking.id)
                   (fun b => { b with
                     payment_intent_id := some (create_payment_intent booking.id).1,
                     version := verOr1 booking.version + 1 }))
              | some PiStatus.succeeded =>
                if expiresAt ≤ now then (.holdExpired, dbW)
                else if _has_confirmed_overlap db booking.property_id
                          booking.start_date booking.end_date then
                  (.overlapConflict, dbW)
                else if (confirmUpdate dbW booking.id (verOr1 booking.version)).1 ≠ 0 then
                  (.alreadyPaid, (confirmUpdate dbW booking.id (verOr1 booking.version)).2)
                else (.alreadyPaid, dbW)
              | _ => (.info booking.id (retrieve_client_secret piId) expiresAt, dbW)
            else (.info booking.id (retrieve_client_secret piId) expiresAt, dbW)

/-- Outcomes of `finalize_payment`. -/
inductive FinalizeResult
  | notFound
  | notAllowed
  | alreadyConfirmed (booking : Booking)
  | notPendingPayment
  | holdExpired
  | stripeDisabled
  | missingIntent
  | retrieveFailed
  | overlapConflict
  | confirmedBooking (booking : Booking)
  | versionConflict
  | processing
  | paymentCancelled
  | otherStatus (s : Option String)
deriving DecidableEq, Repr

/-- Model of `finalize_payment` (`payments.py` lines 216-309).  On zero affected
rows the handler rolls back, re-reads the record from the current
database (`dbW`), returns it when it is now confirmed, and answers
HTTP 409 "Version conflict" otherwise. -/
def finalize_payment (db dbW : List Booking) (bookingId userId : Nat)
    (now : Int) (stripeOn : Bool) (piStat : Option PiStatus) :
    FinalizeResult × List Booking :=
  match dbGet db bookingId with
  | none => (.notFound, dbW)
  | some booking =>
    if booking.guest_id ≠ userId then (.notAllowed, dbW)
    else if booking.status = BStatus.confirmed then (.alreadyConfirmed booking, dbW)
    else if booking.status ≠ BStatus.pending_payment then (.notPendingPayment, dbW)
    else
      match booking.expires_at with
      | none => (.holdExpired, dbW)
      | some exp =>
        if exp ≤ now then (.holdExpired, dbW)
        else if !stripeOn then (.stripeDisabled, dbW)
        else
          match booking.payment_intent_id with
          | none => (.missingIntent, dbW)
          | some _ =>
            match piStat with
            | none => (.retrieveFailed, dbW)
            | some PiStatus.succeeded =>
              if _has_confirmed_overlap db booking.property_id
                   booking.start_date booking.end_date then
                (.overlapConflict, dbW)
              else if (confirmUpdate dbW booking.id (verOr1 booking.version)).1 = 0 then
                match dbGet dbW booking.id with
                | some latest =>
                  if latest.status = BStatus.confirmed then
                    (.alreadyConfirmed latest, dbW)
                  else (.versionConflict, dbW)
                | none => (.versionConflict, dbW)
              else
                match dbGet (confirmUpdate dbW booking.id (verOr1 booking.version)).2
                    booking.id with
                | some fresh =>
                  (.confirmedBooking fresh,
                   (confirmUpdate dbW booking.id (verOr1 booking.version)).2)
                | none =>
                  (.confirmedBooking booking,
                   (confirmUpdate dbW booking.id (verOr1 booking.version)).2)
            | some PiStatus.processing => (.processing, dbW)
            | some PiStatus.requires_action => (.processing, dbW)
            | some PiStatus.requires_payment_method => (.processing, dbW)
            | some PiStatus.requires_confirmation => (.processing, dbW)
            | some PiStatus.canceled => (.paymentCancelled, dbW)
            | some (PiStatus.unknown s) => (.otherStatus (some s), dbW)

/-- Outcomes of `stripe_webhook`, one per response body / raised error. -/
inductive WebhookResult
  | stripeDisabled
  | secretMissing
  | invalidPayload
  | missingIntentId
  | unknownIntent
  | alreadyConfirmed
  | invalidStatus
  | expired
  | overlapConflict
  | versionConflict
  | confirmedOk
  | paymentFailedObserved
  | ignored
deriving DecidableEq, Repr

/-- Whether a webhook outcome is surfaced as an HTTP 4xx error by the
source (`payments.py` lines 334-435); every other outcome is acknowledged
with HTTP 200. -/
def webhookIsError : WebhookResult → Bool
  | WebhookResult.secretMissing => true
  | WebhookResult.invalidPayload => true
  | WebhookResult.missingIntentId => true
  | _ => false

/-- Model of `stripe_webhook` (`payments.py` lines 334-435).  `secretConfigured`
models `STRIPE_WEBHOOK_SECRET` being set, `sigValid` the signature check
of `stripe.Webhook.construct_event` succeeding, `objPresent` the event
carrying a data object, and `intentId` its `id` field. -/
def stripe_webhook (db dbW : List Booking) (now : Int)
    (stripeOn secretConfigured sigValid : Bool)
    (eventType : String) (objPresent : Bool) (intentId : Option String) :
    WebhookResult × List Booking :=
  if !stripeOn then (.stripeDisabled, dbW)
  else if !secretConfigured then (.secretMissing, dbW)
  else if !sigValid then (.invalidPayload, dbW)
  else if eventType = "payment_intent.succeeded" ∧ objPresent then
    match intentId with
    | none => (.missingIntentId, dbW)
    | some pid =>
      match db.find? (fun b => b.payment_intent_id == some pid) with
      | none => (.unknownIntent, dbW)
      | some booking =>
        if booking.status = BStatus.confirmed then (.alreadyConfirmed, dbW)
        else if booking.status ≠ BStatus.pending_payment then (.invalidStatus, dbW)
        else
          match booking.expires_at with
          | none => (.expired, dbW)
          | some exp =>
            if exp ≤ now then (.expired, dbW)
            else if _has_confirmed_overlap db booking.property_id
                      booking.start_date booking.end_date then
              (.overlapConflict, dbW)
            else if (confirmUpdate dbW booking.id (verOr1 booking.version)).1 = 0 then
              match dbGet dbW booking.id with
              | some latest =>
                if latest.status = BStatus.confirmed then
                  (.alreadyConfirmed, dbW)
                else (.versionConflict, dbW)
              | none => (.versionConflict, dbW)
            else (.confirmedOk, (confirmUpdate dbW booking.id (verOr1 booking.version)).2)
  else if eventType = "payment_intent.payment_failed" then
    (.paymentFailedObserved, dbW)
  else (.ignored, dbW)

/-- State of the Redis backing cache as observed by one `redis_try_lock`
acquisition: the client may be disabled (`get_redis()` returns `None`),
the `SET NX PX` call may raise, or it may execute against a store mapping
keys to holder tokens. -/
inductive CacheState
  | disabled
  | raisesOnSet
  | up (store : List (String × String))
deriving DecidableEq, Repr

/-- Redis `SET key token NX PX ttl`: succeed iff the key is absent. -/
def trySetNX (store : List (String × String)) (key token : String) :
    Bool × List (String × String) :=
  if (store.find? (fun kv => kv.1 == key)).isSome then (false, store)
  else (true, (key, token) :: store)

/-- Model of the `redis_try_lock` acquisition (`locks.py` lines 16-50): fail-open on a
disabled client and on an unexpected error from the `SET` call; otherwise
report whether `SET NX` succeeded. -/
def redis_try_lock (cache : CacheState) (key token : String) : Bool :=
  match cache with
  | CacheState.disabled => true
  | CacheState.raisesOnSet => true
  | CacheState.up store => (trySetNX store key token).1

/-! ## Generic lemmas about the storage primitives -/

/-- An `UPDATE` does not move rows: position `i` of the result is row `i`
of the input, transformed when it matches the filter. -/
theorem updateRows_getElem (db : List Booking) (c : Booking → Bool)
    (u : Booking → Booking) (i : Nat) :
    (updateRows db c u)[i]? = (db[i]?).map (fun b => if c b then u b else b) := by
  simp [updateRows]

/-- An `UPDATE` whose filter matches no row leaves the table unchanged. -/
theorem updateRows_nomatch (db : List Booking) (c : Booking → Bool)
    (u : Booking → Booking) (h : ∀ b ∈ db, c b = false) :
    updateRows db c u = db := by
  induction db with
  | nil => rfl
  | cons a l ih =>
    have ha := h a (List.mem_cons_self a l)
    have ih2 := ih (fun b hb => h b (List.mem_cons_of_mem a hb))
    simp only [updateRows, List.map_cons] at *
    rw [ha]
    simp only [Bool.false_eq_true, if_false]
    rw [ih2]

/-! ## Sample rows for witnesses and counterexamples -/

/-- Sample booking row: property 10, guest 7, dates `[0, 2)`, payment
handle already opened. -/
def bk (st : BStatus) (ver : Nat) (exp : Option Int) : Booking :=
  { id := 1, property_id := 10, guest_id := 7, start_date := 0, end_date := 2,
    status := st, total_cents := 20000, currency := "USD",
    payment_intent_id := some "pi_test_1", expires_at := exp,
    cancel_reason := none, version := ver }

/-- Sample listing: price 10000 cents per night, no approval required,
owned by user 100. -/
def props0 : List Property :=
  [{ id := 10, owner_id := some 100, price_cents := 10000,
     requires_approval := false }]

/-- Sample listing requiring approval. -/
def propsA : List Property :=
  [{ id := 10, owner_id := some 100, price_cents := 10000,
     requires_approval := true }]

/-! ## C1 — the overlap checker -/

/-- C1: for every listing id and proposed half-open range `[s, e)`, the
overlap check returns true iff some reservation of that listing with
status `confirmed` has a range `[s2, e2)` with `NOT (e <= s2 OR s >= e2)`;
reservations in any other status never make it return true.  Both copies
of the query (`_has_overlap` in the bookings routes and
`_has_confirmed_overlap` in the payments module) agree. -/
theorem overlap_check_spec (db : List Booking) (propertyId : Nat) (s e : Int) :
    (_has_overlap db propertyId s e = true ↔
      ∃ b ∈ db, b.property_id = propertyId ∧ b.status = BStatus.confirmed ∧
        ¬(e ≤ b.start_date ∨ s ≥ b.end_date)) ∧
    _has_confirmed_overlap db propertyId s e = _has_overlap db propertyId s e := by
  refine ⟨?_, rfl⟩
  unfold _has_overlap
  rw [List.any_eq_true]
  constructor
  · rintro ⟨b, hb, hcond⟩
    rw [Bool.and_eq_true, Bool.and_eq_true] at hcond
    obtain ⟨⟨h1, h2⟩, h3⟩ := hcond
    rw [beq_iff_eq] at h1
    rw [beq_iff_eq] at h2
    rw [Bool.not_eq_true', Bool.or_eq_false_iff] at h3
    obtain ⟨h4, h5⟩ := h3
    rw [decide_eq_false_iff_not] at h4
    rw [decide_eq_false_iff_not] at h5
    exact ⟨b, hb, h1, h2, by push_neg; omega⟩
  · rintro ⟨b, hb, h1, h2, h3⟩
    push_neg at h3
    refine ⟨b, hb, ?_⟩
    rw [Bool.and_eq_true, Bool.and_eq_true, beq_iff_eq, beq_iff_eq,
      Bool.not_eq_true', Bool.or_eq_false_iff, decide_eq_false_iff_not,
      decide_eq_false_iff_not]
    exact ⟨⟨h1, h2⟩, by omega, by omega⟩

/-! ## C9 — advisory lock fails open -/

/-- C9: acquisition reports the lock as held whenever the backing cache is
disabled, unreachable, or raises during the `SET`; it reports false exactly
when the cache is reachable and the key is already owned by another
holder. -/
theorem lock_fail_open (cache : CacheState) (key token : String) :
    redis_try_lock cache key token = false ↔
      ∃ store, cache = CacheState.up store ∧
        (store.find? (fun kv => kv.1 == key)).isSome = true := by
  cases cache with
  | disabled => simp [redis_try_lock]
  | raisesOnSet => simp [redis_try_lock]
  | up store =>
    by_cases h : (store.find? (fun kv => kv.1 == key)).isSome = true
    · constructor
      · intro _
        exact ⟨store, rfl, h⟩
      · intro _
        show (trySetNX store key token).1 = false
        unfold trySetNX
        rw [if_pos h]
    · constructor
      · intro hfalse
        have h2 : (trySetNX store key token).1 = false := hfalse
        unfold trySetNX at h2
        rw [if_neg h] at h2
        simp at h2
      · rintro ⟨store2, hs, hsome⟩
        cases hs
        exact absurd hsome h

/-! ## C10 — webhook acknowledges unknown payment handles -/

/-- C10: an authenticated `payment_intent.succeeded` notification whose
payment handle matches no stored reservation is acknowledged with the
non-error `unknown_intent` outcome, and no reservation state is mutated. -/
theorem webhook_unknown_intent_ack (db dbW : List Booking) (now : Int)
    (pid : String)
    (hfind : db.find? (fun b => b.payment_intent_id == some pid) = none) :
    stripe_webhook db dbW now true true true "payment_intent.succeeded" true
        (some pid) = (WebhookResult.unknownIntent, dbW) ∧
    webhookIsError WebhookResult.unknownIntent = false := by
  refine ⟨?_, rfl⟩
  simp [stripe_webhook, hfind]

/-- Witness for C10 at a concrete store holding one unrelated reservation. -/
theorem webhook_unknown_intent_ack_witness :
    ([bk BStatus.pending_payment 1 (some 100)].find?
        (fun b => b.payment_intent_id == some "pi_other") = none) ∧
    (stripe_webhook [bk BStatus.pending_payment 1 (some 100)]
        [bk BStatus.pending_payment 1 (some 100)] 0 true true true
        "payment_intent.succeeded" true (some "pi_other") =
      (WebhookResult.unknownIntent, [bk BStatus.pending_payment 1 (some 100)]) ∧
    webhookIsError WebhookResult.unknownIntent = false) :=
  ⟨by decide, webhook_unknown_intent_ack _ _ 0 "pi_other" (by decide)⟩

/-! ## C5 — cancellation and terminal statuses -/

/-- C5 counterexample: the source treats only `cancelled`,
`cancelled_expired` and `declined` as terminal in `cancel_booking`; a
`confirmed` reservation is NOT returned unchanged — the call transitions
it to `cancelled`, sets a cancel reason and bumps the version. -/
theorem cancel_confirmed_mutates :
    cancel_booking [] [bk BStatus.confirmed 1 (some 100)]
        [bk BStatus.confirmed 1 (some 100)] 1 7 Role.tenant =
      (CancelResult.ok { bk BStatus.confirmed 1 (some 100) with
          status := BStatus.cancelled, cancel_reason := some "cancelled",
          version := 2 },
       [{ bk BStatus.confirmed 1 (some 100) with
          status := BStatus.cancelled, cancel_reason := some "cancelled",
          version := 2 }]) ∧
    (bk BStatus.confirmed 1 (some 100)).status = BStatus.confirmed ∧
    (bk BStatus.confirmed 1 (some 100)).version = 1 ∧
    (bk BStatus.confirmed 1 (some 100)).cancel_reason = none := by
  decide

/-- C5 amended: for a reservation already in one of the statuses the code
treats as terminal (`cancelled`, `cancelled_expired`, `declined`), the
cancel operation returns the current record with status, version and
cancel reason unaltered and writes nothing; `confirmed` is not in that
set and is transitioned to `cancelled` instead. -/
theorem cancel_terminal_noop (props : List Property) (db dbW : List Booking)
    (bookingId userId : Nat) (role : Role) (obj : Booking)
    (hget : dbGet db bookingId = some obj)
    (hauth : cancelAuthorized props obj userId role = true)
    (hterm : obj.status = BStatus.cancelled ∨
      obj.status = BStatus.cancelled_expired ∨ obj.status = BStatus.declined) :
    cancel_booking props db dbW bookingId userId role =
      (CancelResult.ok obj, dbW) := by
  unfold cancel_booking
  rw [hget]
  simp only [hauth, Bool.not_true, Bool.false_eq_true, if_false]
  rw [if_pos hterm]

/-- Witness for C5's amended theorem on a declined reservation. -/
theorem cancel_terminal_noop_witness :
    dbGet [bk BStatus.declined 3 none] 1 = some (bk BStatus.declined 3 none) ∧
    cancelAuthorized [] (bk BStatus.declined 3 none) 7 Role.tenant = true ∧
    cancel_booking [] [bk BStatus.declined 3 none] [bk BStatus.declined 3 none]
        1 7 Role.tenant =
      (CancelResult.ok (bk BStatus.declined 3 none), [bk BStatus.declined 3 none]) :=
  ⟨by decide, by decide,
   cancel_terminal_noop [] _ _ 1 7 Role.tenant (bk BStatus.declined 3 none)
     (by decide) (by decide) (by decide)⟩

/-! ## C7 — booking creation -/

/-- Booking carried by a creation result, when one was created. -/
def createdRow : CreateResult → Option Booking
  | CreateResult.created b _ => some b
  | _ => none

/-- Next-action discriminator carried by a creation result. -/
def createdNext : CreateResult → Option NextAction
  | CreateResult.created _ n => some n
  | _ => none

/-- C7: a valid creation request (`s < e`) on an existing listing, with the
lock held and no confirmed overlap, inserts exactly one reservation whose
`total_cents` is nights times the unit price; with `approval_required` it
starts `requested` with no deadline and no payment handle, otherwise it
starts `pending_payment` with deadline `now + holdMinutes` and an opened
payment handle; the configured default hold window is 15 minutes. -/
theorem create_booking_spec (props : List Property) (db : List Booking)
    (userId propertyId : Nat) (s e now holdMinutes : Int) (newId : Nat)
    (prop : Property) (res : CreateResult) (db2 : List Booking)
    (hrun : create_booking props db userId propertyId s e now true holdMinutes
      newId = (res, db2))
    (hdates : s < e)
    (hprop : propGet props propertyId = some prop)
    (hnoov : _has_overlap db propertyId s e = false) :
    (createdRow res).map Booking.total_cents =
      some (prop.price_cents * (e - s)) ∧
    db2 = db ++ (createdRow res).toList ∧
    (prop.requires_approval = true →
      (createdRow res).map Booking.status = some BStatus.requested ∧
      (createdRow res).map Booking.expires_at = some none ∧
      (createdRow res).map Booking.payment_intent_id = some none ∧
      createdNext res = some NextAction.await_approval) ∧
    (prop.requires_approval = false →
      (createdRow res).map Booking.status = some BStatus.pending_payment ∧
      (createdRow res).map Booking.expires_at = some (some (now + holdMinutes)) ∧
      (createdRow res).map Booking.payment_intent_id =
        some (some (create_payment_intent newId).1) ∧
      createdNext res =
        some (NextAction.pay (some (now + holdMinutes))
          (create_payment_intent newId).2)) ∧
    HOLD_MINUTES = 15 := by
  have hne : ¬ (s ≥ e) := by omega
  unfold create_booking at hrun
  rw [hprop, if_neg hne] at hrun
  simp only [Bool.not_true, Bool.false_eq_true, if_false, hnoov] at hrun
  cases hra : prop.requires_approval <;> rw [hra] at hrun <;>
    simp only [Bool.false_eq_true, if_false, if_true, reduceIte] at hrun <;>
    cases hrun <;>
    simp [createdRow, createdNext, HOLD_MINUTES]

/-- Witness for C7 at the spec's pricing example: 10000 cents per night for
2 nights yields 20000. -/
theorem create_booking_spec_witness :
    ((0:Int) < 2) ∧
    (createdRow (create_booking props0 [] 7 10 0 2 0 true 15 1).1).map
        Booking.total_cents = some 20000 ∧
    (createdRow (create_booking props0 [] 7 10 0 2 0 true 15 1).1).map
        Booking.status = some BStatus.pending_payment ∧
    (createdRow (create_booking props0 [] 7 10 0 2 0 true 15 1).1).map
        Booking.expires_at = some (some 15) := by
  have h := create_booking_spec props0 [] 7 10 0 2 0 15 1
    { id := 10, owner_id := some 100, price_cents := 10000,
      requires_approval := false }
    (create_booking props0 [] 7 10 0 2 0 true 15 1).1
    (create_booking props0 [] 7 10 0 2 0 true 15 1).2
    rfl (by norm_num) rfl rfl
  refine ⟨by norm_num, ?_, ?_, ?_⟩
  · rw [h.1]
    norm_num
  · exact (h.2.2.2.1 rfl).1
  · exact (h.2.2.2.1 rfl).2.1

/-! ## C8 — expiry sweep -/

/-- Characterization of the sweep filter. -/
theorem sweepMatch_iff (now : Int) (b : Booking) :
    sweepMatch now b = true ↔
      b.status = BStatus.pending_payment ∧
        ∃ d, b.expires_at = some d ∧ d < now := by
  unfold sweepMatch
  rw [Bool.and_eq_true, beq_iff_eq]
  cases hexp : b.expires_at with
  | none => simp
  | some d0 => simp

/-- After one sweep, no row still satisfies the sweep filter. -/
theorem sweep_result_nomatch (db : List Booking) (now : Int) :
    ∀ b2 ∈ (sweep_expired_bookings db now).2, sweepMatch now b2 = false := by
  intro b2 hb2
  have hb2m : b2 ∈ updateRows db (sweepMatch now)
      (fun b => { b with status := BStatus.cancelled_expired,
                         cancel_reason := some (strOr b.cancel_reason "expired"),
                         version := verOr1 b.version + 1 }) := hb2
  unfold updateRows at hb2m
  rw [List.mem_map] at hb2m
  obtain ⟨b, _, hval⟩ := hb2m
  by_cases hc : sweepMatch now b = true
  · rw [if_pos hc] at hval
    rw [← hval]
    unfold sweepMatch
    simp
  · rw [if_neg hc] at hval
    rw [← hval]
    exact Bool.eq_false_iff.mpr hc

/-- C8: one sweep run transitions exactly the rows that are
`pending_payment` with a hold deadline strictly before `now` to
`cancelled_expired` (setting the reason to "expired" when unset and
bumping the version), leaves every other row untouched, and running the
sweep again on the result is a no-op. -/
theorem sweep_spec (db : List Booking) (now : Int) (i : Nat) (b : Booking)
    (hb : db[i]? = some b) :
    (∀ d, b.status = BStatus.pending_payment → b.expires_at = some d →
      d < now →
      ((sweep_expired_bookings db now).2)[i]? =
        some { b with status := BStatus.cancelled_expired,
                      cancel_reason := some (strOr b.cancel_reason "expired"),
                      version := verOr1 b.version + 1 }) ∧
    (¬(b.status = BStatus.pending_payment ∧
        ∃ d, b.expires_at = some d ∧ d < now) →
      ((sweep_expired_bookings db now).2)[i]? = some b) ∧
    sweep_expired_bookings (sweep_expired_bookings db now).2 now =
      (0, (sweep_expired_bookings db now).2) := by
  have hrw : (sweep_expired_bookings db now).2 = updateRows db (sweepMatch now)
      (fun b => { b with status := BStatus.cancelled_expired,
                         cancel_reason := some (strOr b.cancel_reason "expired"),
                         version := verOr1 b.version + 1 }) := rfl
  refine ⟨?_, ?_, ?_⟩
  · intro d h1 h2 h3
    have hm : sweepMatch now b = true := (sweepMatch_iff now b).mpr ⟨h1, d, h2, h3⟩
    rw [hrw, updateRows_getElem, hb]
    simp [hm]
  · intro h
    have hm : sweepMatch now b = false := by
      rw [Bool.eq_false_iff]
      intro htrue
      exact h ((sweepMatch_iff now b).mp htrue)
    rw [hrw, updateRows_getElem, hb]
    simp [hm]
  · have hzero : (sweep_expired_bookings db now).2.filter (sweepMatch now) = [] := by
      rw [List.filter_eq_nil_iff]
      intro a ha
      rw [sweep_result_nomatch db now a ha]
      simp
    show ((((sweep_expired_bookings db now).2).filter (sweepMatch now)).length,
      updateRows (sweep_expired_bookings db now).2 (sweepMatch now) _) = _
    rw [hzero, updateRows_nomatch _ _ _ (sweep_result_nomatch db now)]
    rfl

/-- Witness for C8 at the spec's Scenario C: a pending reservation with a
past deadline becomes `cancelled_expired` with reason "expired". -/
theorem sweep_spec_witness :
    ([bk BStatus.pending_payment 1 (some 5)][0]? =
      some (bk BStatus.pending_payment 1 (some 5))) ∧
    ((sweep_expired_bookings [bk BStatus.pending_payment 1 (some 5)] 10).2)[0]? =
      some { bk BStatus.pending_payment 1 (some 5) with
             status := BStatus.cancelled_expired,
             cancel_reason := some "expired", version := 2 } := by
  have h := (sweep_spec [bk BStatus.pending_payment 1 (some 5)] 10 0
      (bk BStatus.pending_payment 1 (some 5)) rfl).1 5 rfl rfl (by norm_num)
  refine ⟨rfl, ?_⟩
  simpa [strOr, verOr1] using h

/-! ## C3 — no confirmation past the hold deadline -/

/-- With a missing or lapsed deadline on the read record, the client
finalize path writes nothing: every reachable branch hands back the
commit-time database untouched. -/
theorem finalize_payment_unchanged_of_stale (db dbW : List Booking)
    (bookingId userId : Nat) (now : Int) (stripeOn : Bool)
    (piStat : Option PiStatus) (b : Booking)
    (hget : dbGet db bookingId = some b)
    (hstale : ∀ d, b.expires_at = some d → d ≤ now) :
    (finalize_payment db dbW bookingId userId now stripeOn piStat).2 = dbW := by
  unfold finalize_payment
  rw [hget]
  split
  · rfl
  · rename_i obj heq
    injection heq with heq2
    subst heq2
    repeat first
    | rfl
    | (exact absurd (hstale _ (by assumption)) (by assumption))
    | split

/-- With a missing or lapsed deadline on the read record, the
payment-info path writes nothing. -/
theorem get_payment_info_unchanged_of_stale (db dbW : List Booking)
    (bookingId userId : Nat) (now : Int) (stripeOn : Bool)
    (piStat : Option PiStatus) (b : Booking)
    (hget : dbGet db bookingId = some b)
    (hstale : ∀ d, b.expires_at = some d → d ≤ now) :
    (get_payment_info db dbW bookingId userId now stripeOn piStat).2 = dbW := by
  unfold get_payment_info
  rw [hget]
  split
  · rfl
  · rename_i obj heq
    injection heq with heq2
    subst heq2
    repeat first
    | rfl
    | (exact absurd (hstale _ (by assumption)) (by assumption))
    | split

/-- With a missing or lapsed deadline on the record matching the notified
payment handle, the webhook path writes nothing. -/
theorem stripe_webhook_unchanged_of_stale (db dbW : List Booking)
    (now : Int) (pid : String) (b : Booking)
    (hfind : db.find? (fun x => x.payment_intent_id == some pid) = some b)
    (hstale : ∀ d, b.expires_at = some d → d ≤ now) :
    (stripe_webhook db dbW now true true true "payment_intent.succeeded" true
      (some pid)).2 = dbW := by
  unfold stripe_webhook
  simp only [Bool.not_true, Bool.false_eq_true, if_false]
  split
  · split
    · rfl
    · rename_i obj heq
      rw [hfind] at heq
      injection heq with h2
      subst h2
      repeat first
      | rfl
      | (exact absurd (hstale _ (by assumption)) (by assumption))
      | split
  · repeat first
    | rfl
    | split

/-- With a lapsed (or missing) deadline on a pending booking, the client
finalize path answers exactly "Payment hold expired". -/
theorem finalize_payment_stale_reject (db dbW : List Booking)
    (bookingId userId : Nat) (now : Int) (stripeOn : Bool)
    (piStat : Option PiStatus) (b : Booking)
    (hget : dbGet db bookingId = some b)
    (hguest : b.guest_id = userId)
    (hpend : b.status = BStatus.pending_payment)
    (hstale : ∀ d, b.expires_at = some d → d ≤ now) :
    finalize_payment db dbW bookingId userId now stripeOn piStat =
      (FinalizeResult.holdExpired, dbW) := by
  unfold finalize_payment
  rw [hget]
  split
  · rename_i heq
    simp at heq
  · rename_i obj heq
    injection heq with heq2
    subst heq2
    have hconf : ¬ (b.status = BStatus.confirmed) := by rw [hpend]; decide
    repeat first
    | rfl
    | (exact absurd hguest (by assumption))
    | (exact absurd hpend (by assumption))
    | (exact absurd (by assumption) hconf)
    | (exact absurd (hstale _ (by assumption)) (by assumption))
    | split

/-- With a lapsed (or missing) deadline on a pending booking, the
payment-info path answers exactly "Payment hold expired". -/
theorem get_payment_info_stale_reject (db dbW : List Booking)
    (bookingId userId : Nat) (now : Int) (stripeOn : Bool)
    (piStat : Option PiStatus) (b : Booking)
    (hget : dbGet db bookingId = some b)
    (hguest : b.guest_id = userId)
    (hpend : b.status = BStatus.pending_payment)
    (hstale : ∀ d, b.expires_at = some d → d ≤ now) :
    get_payment_info db dbW bookingId userId now stripeOn piStat =
      (PayInfoResult.holdExpired, dbW) := by
  unfold get_payment_info
  rw [hget]
  split
  · rename_i heq
    simp at heq
  · rename_i obj heq
    injection heq with heq2
    subst heq2
    repeat first
    | rfl
    | (exact absurd hguest (by assumption))
    | (exact absurd hpend (by assumption))
    | (exact absurd (hstale _ (by assumption)) (by assumption))
    | split

/-- With a lapsed (or missing) deadline on the pending booking matching
the notified handle, the webhook acknowledges `expired`. -/
theorem stripe_webhook_stale_reject (db dbW : List Booking) (now : Int)
    (pid : String) (b : Booking)
    (hfind : db.find? (fun x => x.payment_intent_id == some pid) = some b)
    (hpend : b.status = BStatus.pending_payment)
    (hstale : ∀ d, b.expires_at = some d → d ≤ now) :
    stripe_webhook db dbW now true true true "payment_intent.succeeded" true
      (some pid) = (WebhookResult.expired, dbW) := by
  unfold stripe_webhook
  simp only [Bool.not_true, Bool.false_eq_true, if_false]
  split
  · split
    · rename_i heq
      rw [hfind] at heq
      simp at heq
    · rename_i obj heq
      rw [hfind] at heq
      injection heq with heq2
      subst heq2
      have hconf : ¬ (b.status = BStatus.confirmed) := by rw [hpend]; decide
      repeat first
      | rfl
      | (exact absurd hpend (by assumption))
      | (exact absurd (by assumption) hconf)
      | (exact absurd (hstale _ (by assumption)) (by assumption))
      | split
  · rename_i hcond
    exact absurd (by constructor <;> trivial) hcond

/-- C3: a reservation whose hold deadline is missing or at/before the
current time is never transitioned to `confirmed`: each of the three
confirm-capable entry points (client finalize, payment-info success path,
webhook) checks the deadline before the conditional update; the two
client paths answer "Payment hold expired", the webhook acknowledges
`expired`, and in every case the commit-time database is handed back
untouched. -/
theorem deadline_guard (db dbW : List Booking) (bookingId userId : Nat)
    (now : Int) (stripeOn : Bool) (piStat : Option PiStatus) (pid : String)
    (b : Booking)
    (hstale : ∀ d, b.expires_at = some d → d ≤ now) :
    (dbGet db bookingId = some b →
      (finalize_payment db dbW bookingId userId now stripeOn piStat).2 = dbW ∧
      (get_payment_info db dbW bookingId userId now stripeOn piStat).2 = dbW) ∧
    (dbGet db bookingId = some b → b.guest_id = userId →
      b.status = BStatus.pending_payment →
      finalize_payment db dbW bookingId userId now stripeOn piStat =
        (FinalizeResult.holdExpired, dbW) ∧
      get_payment_info db dbW bookingId userId now stripeOn piStat =
        (PayInfoResult.holdExpired, dbW)) ∧
    (db.find? (fun x => x.payment_intent_id == some pid) = some b →
      (stripe_webhook db dbW now true true true "payment_intent.succeeded" true
        (some pid)).2 = dbW ∧
      (b.status = BStatus.pending_payment →
        stripe_webhook db dbW now true true true "payment_intent.succeeded" true
          (some pid) = (WebhookResult.expired, dbW))) := by
  refine ⟨fun hget =>
      ⟨finalize_payment_unchanged_of_stale db dbW bookingId userId now stripeOn
          piStat b hget hstale,
        get_payment_info_unchanged_of_stale db dbW bookingId userId now stripeOn
          piStat b hget hstale⟩,
    fun hget hguest hpend =>
      ⟨finalize_payment_stale_reject db dbW bookingId userId now stripeOn piStat
          b hget hguest hpend hstale,
        get_payment_info_stale_reject db dbW bookingId userId now stripeOn piStat
          b hget hguest hpend hstale⟩,
    fun hfind =>
      ⟨stripe_webhook_unchanged_of_stale db dbW now pid b hfind hstale,
        fun hpend =>
          stripe_webhook_stale_reject db dbW now pid b hfind hpend hstale⟩⟩

/-- Witness for C3: a pending reservation with deadline 5 at time 10 is
rejected by all three entry points without any write. -/
theorem deadline_guard_witness :
    finalize_payment [bk BStatus.pending_payment 1 (some 5)]
        [bk BStatus.pending_payment 1 (some 5)] 1 7 10 true
        (some PiStatus.succeeded) =
      (FinalizeResult.holdExpired, [bk BStatus.pending_payment 1 (some 5)]) ∧
    get_payment_info [bk BStatus.pending_payment 1 (some 5)]
        [bk BStatus.pending_payment 1 (some 5)] 1 7 10 true
        (some PiStatus.succeeded) =
      (PayInfoResult.holdExpired, [bk BStatus.pending_payment 1 (some 5)]) ∧
    stripe_webhook [bk BStatus.pending_payment 1 (some 5)]
        [bk BStatus.pending_payment 1 (some 5)] 10 true true true
        "payment_intent.succeeded" true (some "pi_test_1") =
      (WebhookResult.expired, [bk BStatus.pending_payment 1 (some 5)]) := by
  have h := deadline_guard [bk BStatus.pending_payment 1 (some 5)]
    [bk BStatus.pending_payment 1 (some 5)] 1 7 10 true
    (some PiStatus.succeeded) "pi_test_1" (bk BStatus.pending_payment 1 (some 5))
    (by intro d hd; simp [bk] at hd; omega)
  exact ⟨(h.2.1 (by decide) (by decide) (by decide)).1,
    (h.2.1 (by decide) (by decide) (by decide)).2,
    (h.2.2 (by decide)).2 (by decide)⟩

/-! ## C2 — zero-rows behaviour of the conditional finalize update -/

/-- C2 counterexample: in the payment-info success path, when the
conditional update affects zero rows (here the row was concurrently
cancelled and version-bumped, so it is not `confirmed`), the handler does
not re-read and does not report a version conflict: it rolls back and
answers "Booking already paid" (`alreadyPaid`). -/
theorem payment_info_zero_rows_counterexample :
    get_payment_info [bk BStatus.pending_payment 1 (some 100)]
        [{ bk BStatus.cancelled 2 (some 100) with cancel_reason := some "cancelled" }]
        1 7 50 true (some PiStatus.succeeded) =
      (PayInfoResult.alreadyPaid,
       [{ bk BStatus.cancelled 2 (some 100) with cancel_reason := some "cancelled" }]) ∧
    (confirmUpdate
        [{ bk BStatus.cancelled 2 (some 100) with cancel_reason := some "cancelled" }]
        1 1).1 = 0 ∧
    (dbGet [{ bk BStatus.cancelled 2 (some 100) with cancel_reason := some "cancelled" }]
        1).map Booking.status = some BStatus.cancelled := by
  decide

/-- C2 amended: in the client-initiated finalize and the webhook paths, a
conditional update affecting zero rows triggers a re-read of the record:
if it is now `confirmed` the call reports an idempotent success with that
record, otherwise a version conflict.  The payment-info success path does
not follow this discipline: with zero affected rows it rolls back and
answers "Booking already paid" without re-reading, in both cases. -/
theorem finalize_zero_rows (db dbW : List Booking) (bookingId userId : Nat)
    (now d : Int) (b : Booking) (pid : String)
    (hget : dbGet db bookingId = some b)
    (hguest : b.guest_id = userId)
    (hpend : b.status = BStatus.pending_payment)
    (hexp : b.expires_at = some d) (hfresh : now < d)
    (hintent : b.payment_intent_id = some pid)
    (hnoov : _has_confirmed_overlap db b.property_id b.start_date b.end_date
      = false)
    (hzero : (confirmUpdate dbW b.id (verOr1 b.version)).1 = 0) :
    (∀ latest, dbGet dbW b.id = some latest →
      (latest.status = BStatus.confirmed →
        finalize_payment db dbW bookingId userId now true
            (some PiStatus.succeeded) =
          (FinalizeResult.alreadyConfirmed latest, dbW) ∧
        (db.find? (fun x => x.payment_intent_id == some pid) = some b →
          stripe_webhook db dbW now true true true "payment_intent.succeeded"
            true (some pid) = (WebhookResult.alreadyConfirmed, dbW))) ∧
      (latest.status ≠ BStatus.confirmed →
        finalize_payment db dbW bookingId userId now true
            (some PiStatus.succeeded) =
          (FinalizeResult.versionConflict, dbW) ∧
        (db.find? (fun x => x.payment_intent_id == some pid) = some b →
          stripe_webhook db dbW now true true true "payment_intent.succeeded"
            true (some pid) = (WebhookResult.versionConflict, dbW)))) ∧
    get_payment_info db dbW bookingId userId now true
        (some PiStatus.succeeded) = (PayInfoResult.alreadyPaid, dbW) := by
  have h1 : ¬ (d ≤ now) := by omega
  refine ⟨?_, ?_⟩
  · intro latest hlatest
    constructor
    · intro hconf
      constructor
      · simp [finalize_payment, hget, hguest, hpend, hexp, hintent, hnoov, h1,
          hzero, hlatest, hconf]
      · intro hfind
        simp [stripe_webhook, hfind, hpend, hexp, hnoov, h1, hzero, hlatest,
          hconf]
    · intro hnconf
      constructor
      · simp [finalize_payment, hget, hguest, hpend, hexp, hintent, hnoov, h1,
          hzero, hlatest, hnconf]
      · intro hfind
        simp [stripe_webhook, hfind, hpend, hexp, hnoov, h1, hzero, hlatest,
          hnconf]
  · simp [get_payment_info, hget, hguest, hpend, hexp, hintent, hnoov, h1,
      hzero]

/-- Witness for C2's amended theorem: the commit-time row is already
confirmed, so the finalize and webhook paths report the idempotent
success and the payment-info path answers "already paid". -/
theorem finalize_zero_rows_witness :
    finalize_payment [bk BStatus.pending_payment 1 (some 100)]
        [bk BStatus.confirmed 2 (some 100)] 1 7 50 true
        (some PiStatus.succeeded) =
      (FinalizeResult.alreadyConfirmed (bk BStatus.confirmed 2 (some 100)),
       [bk BStatus.confirmed 2 (some 100)]) ∧
    stripe_webhook [bk BStatus.pending_payment 1 (some 100)]
        [bk BStatus.confirmed 2 (some 100)] 50 true true true
        "payment_intent.succeeded" true (some "pi_test_1") =
      (WebhookResult.alreadyConfirmed, [bk BStatus.confirmed 2 (some 100)]) ∧
    get_payment_info [bk BStatus.pending_payment 1 (some 100)]
        [bk BStatus.confirmed 2 (some 100)] 1 7 50 true
        (some PiStatus.succeeded) =
      (PayInfoResult.alreadyPaid, [bk BStatus.confirmed 2 (some 100)]) := by
  have h := finalize_zero_rows [bk BStatus.pending_payment 1 (some 100)]
    [bk BStatus.confirmed 2 (some 100)] 1 7 50 100
    (bk BStatus.pending_payment 1 (some 100)) "pi_test_1"
    (by decide) (by decide) (by decide) (by decide) (by decide) (by decide)
    (by decide) (by decide)
  have h2 := (h.1 (bk BStatus.confirmed 2 (some 100)) (by decide)).1 (by decide)
  exact ⟨h2.1, h2.2 (by decide), h.2⟩

/-! ## C4 — version preconditions on writes -/

/-- A zero-row outcome of the conditional finalize update leaves the
table byte-for-byte unchanged. -/
theorem confirmUpdate_zero_rows (dbW : List Booking) (bookingId cv : Nat)
    (hzero : (confirmUpdate dbW bookingId cv).1 = 0) :
    (confirmUpdate dbW bookingId cv).2 = dbW := by
  simp only [confirmUpdate, countRows] at hzero ⊢
  have hnil : dbW.filter (fun b : Booking =>
      b.id == bookingId && b.version == cv &&
        b.status == BStatus.pending_payment) = [] :=
    List.length_eq_zero.mp hzero
  refine updateRows_nomatch _ _ _ ?_
  intro b hb
  rw [Bool.eq_false_iff]
  intro htrue
  have hmem : b ∈ dbW.filter (fun b : Booking =>
      b.id == bookingId && b.version == cv &&
        b.status == BStatus.pending_payment) :=
    List.mem_filter.mpr ⟨hb, htrue⟩
  rw [hnil] at hmem
  cases hmem

/-- A row that was concurrently cancelled and version-bumped between one
handler's read and its commit. -/
def bkCancelledV2 : Booking :=
  { bk BStatus.cancelled 2 none with cancel_reason := some "cancelled" }

/-- The row `approve_booking` produces when its unconditional write lands
on `bkCancelledV2`. -/
def bkOverwrittenByApprove : Booking :=
  { bkCancelledV2 with
    status := BStatus.pending_payment,
    expires_at := some 65,
    version := 2 }

/-- C4 counterexample: `approve_booking` includes no version precondition
on its write.  The row was read as `requested` at version 1; by commit
time it had been cancelled and bumped to version 2; the approve write
still applies, silently overwriting the concurrent cancellation (and the
written version, 2, even hides that an update was lost). -/
theorem approve_overwrites_changed_row :
    (bk BStatus.requested 1 none).version = 1 ∧
    bkCancelledV2.version = 2 ∧
    approve_booking propsA [bk BStatus.requested 1 none] [bkCancelledV2]
        1 100 50 true 15 =
      (ApproveResult.ok bkOverwrittenByApprove, [bkOverwrittenByApprove]) := by
  decide

/-- C4 amended: only the finalize paths follow the optimistic discipline —
their conditional update requires the read version and the pending status
as a write precondition, increments the version atomically with the
status change, and a failed precondition writes nothing.  The
approve/decline/cancel/sweep writes bump the version but are keyed by row
id only (without a version precondition), so a row changed since the read
is overwritten regardless of its current version, as `approve_booking`
shows here. -/
theorem version_precondition_guard (dbW : List Booking) (bookingId cv : Nat)
    (i : Nat) (b : Booking) (props : List Property) (db : List Booking)
    (userId : Nat) (now holdMinutes : Int) (obj : Booking) (prop : Property)
    (hb : dbW[i]? = some b) :
    ((confirmUpdate dbW bookingId cv).1 = 0 →
      (confirmUpdate dbW bookingId cv).2 = dbW) ∧
    ((b.id = bookingId ∧ b.version = cv ∧ b.status = BStatus.pending_payment) →
      ((confirmUpdate dbW bookingId cv).2)[i]? =
        some { b with status := BStatus.confirmed, version := cv + 1 }) ∧
    (¬(b.id = bookingId ∧ b.version = cv ∧
        b.status = BStatus.pending_payment) →
      ((confirmUpdate dbW bookingId cv).2)[i]? = some b) ∧
    (dbGet db bookingId = some obj →
      propGet props obj.property_id = some prop →
      prop.owner_id = some userId → obj.status = BStatus.requested →
      b.id = bookingId →
      ((approve_booking props db dbW bookingId userId now true
          holdMinutes).2)[i]? =
        some { b with status := BStatus.pending_payment,
                      expires_at := some (now + holdMinutes),
                      version := verOr1 obj.version + 1 }) := by
  refine ⟨confirmUpdate_zero_rows dbW bookingId cv, ?_, ?_, ?_⟩
  · rintro ⟨h1, h2, h3⟩
    have hc : (b.id == bookingId && b.version == cv &&
        b.status == BStatus.pending_payment) = true := by
      simp [h1, h2, h3]
    show (updateRows dbW _ _)[i]? = _
    rw [updateRows_getElem, hb, Option.map_some']
    rw [if_pos hc]
  · intro h
    have hc : (b.id == bookingId && b.version == cv &&
        b.status == BStatus.pending_payment) = false := by
      rw [Bool.eq_false_iff]
      intro htrue
      apply h
      simpa [Bool.and_eq_true, beq_iff_eq, and_assoc] using htrue
    show (updateRows dbW _ _)[i]? = _
    rw [updateRows_getElem, hb, Option.map_some']
    rw [if_neg (by simp [hc])]
  · intro hget hprop howner hreq hid
    simp only [approve_booking, hget, hprop]
    have h1 : ¬ (prop.owner_id ≠ some userId) := by simp [howner]
    have h2 : ¬ (obj.status ≠ BStatus.requested) := by simp [hreq]
    rw [if_neg h1, if_neg h2]
    simp only [Bool.not_true, Bool.false_eq_true, if_false]
    split <;>
    · rw [updateRows_getElem, hb]
      simp [hid]

/-- Witness for C4's amended theorem: a pending row whose version matches
the read version is confirmed with the version bumped atomically. -/
theorem version_precondition_guard_witness :
    ([bk BStatus.pending_payment 1 (some 100)][0]? =
      some (bk BStatus.pending_payment 1 (some 100))) ∧
    ((confirmUpdate [bk BStatus.pending_payment 1 (some 100)] 1 1).2)[0]? =
      some { bk BStatus.pending_payment 1 (some 100) with
             status := BStatus.confirmed, version := 2 } := by
  have h := version_precondition_guard [bk BStatus.pending_payment 1 (some 100)]
    1 1 0 (bk BStatus.pending_payment 1 (some 100)) [] [] 0 0 0
    (bk BStatus.pending_payment 1 (some 100))
    { id := 0, owner_id := none, price_cents := 0, requires_approval := false }
    rfl
  exact ⟨rfl, by simpa using h.2.1 (by decide)⟩

/-! ## C6 — the hold-deadline/status invariant over reachable states -/

/-- Per-row deadline discipline the engine actually maintains: rows in
`requested` or `declined` carry no hold deadline, and rows in
`pending_payment` always carry one.  (Nothing is claimed for the other
statuses: the source never clears `expires_at`.) -/
def RowDeadlineInv (b : Booking) : Prop :=
  ((b.status = BStatus.requested ∨ b.status = BStatus.declined) →
    b.expires_at = none) ∧
  (b.status = BStatus.pending_payment → b.expires_at ≠ none)

/-- Table-wide version of `RowDeadlineInv`. -/
def DeadlineInv (db : List Booking) : Prop := ∀ b ∈ db, RowDeadlineInv b

/-- Primary-key uniqueness of the `bookings` table. -/
def DistinctIds (db : List Booking) : Prop :=
  db.Pairwise (fun a b => a.id ≠ b.id)

/-- Sequential executions of the engine: every state obtained from the
empty table by running the handlers (reads and write against the same
state) with arbitrary parameters; inserts receive a fresh primary key. -/
inductive Reach (props : List Property) : List Booking → Prop
  | init : Reach props []
  | create (db : List Booking) (userId propertyId : Nat) (s e now : Int)
      (locked : Bool) (holdMinutes : Int) (newId : Nat)
      (h : Reach props db) (hfresh : ∀ b ∈ db, b.id ≠ newId) :
      Reach props (create_booking props db userId propertyId s e now locked
        holdMinutes newId).2
  | approve (db : List Booking) (bookingId userId : Nat) (now : Int)
      (locked : Bool) (holdMinutes : Int) (h : Reach props db) :
      Reach props (approve_booking props db db bookingId userId now locked
        holdMinutes).2
  | decline (db : List Booking) (bookingId userId : Nat) (h : Reach props db) :
      Reach props (decline_booking props db db bookingId userId).2
  | cancel (db : List Booking) (bookingId userId : Nat) (role : Role)
      (h : Reach props db) :
      Reach props (cancel_booking props db db bookingId userId role).2
  | sweep (db : List Booking) (now : Int) (h : Reach props db) :
      Reach props (sweep_expired_bookings db now).2
  | payinfo (db : List Booking) (bookingId userId : Nat) (now : Int)
      (stripeOn : Bool) (piStat : Option PiStatus) (h : Reach props db) :
      Reach props (get_payment_info db db bookingId userId now stripeOn
        piStat).2
  | finalize (db : List Booking) (bookingId userId : Nat) (now : Int)
      (stripeOn : Bool) (piStat : Option PiStatus) (h : Reach props db) :
      Reach props (finalize_payment db db bookingId userId now stripeOn
        piStat).2
  | webhook (db : List Booking) (now : Int)
      (stripeOn secretConfigured sigValid : Bool) (eventType : String)
      (objPresent : Bool) (intentId : Option String) (h : Reach props db) :
      Reach props (stripe_webhook db db now stripeOn secretConfigured sigValid
        eventType objPresent intentId).2

/-- Rows of an update come from rows of the input. -/
theorem updateRows_mem (db : List Booking) (c : Booking → Bool)
    (u : Booking → Booking) (b2 : Booking) (hb2 : b2 ∈ updateRows db c u) :
    ∃ b ∈ db, b2 = if c b then u b else b := by
  unfold updateRows at hb2
  rw [List.mem_map] at hb2
  obtain ⟨b, hb, hval⟩ := hb2
  exact ⟨b, hb, hval.symm⟩

/-- An id-preserving update keeps primary keys distinct. -/
theorem updateRows_distinct (db : List Booking) (c : Booking → Bool)
    (u : Booking → Booking) (hu : ∀ b, (u b).id = b.id)
    (h : DistinctIds db) : DistinctIds (updateRows db c u) := by
  unfold DistinctIds updateRows at *
  rw [List.pairwise_map]
  refine h.imp ?_
  intro a b hab
  by_cases hca : c a = true <;> by_cases hcb : c b = true <;>
    simp [hca, hcb, hu, hab]

/-- Appending a row with a fresh id keeps primary keys distinct. -/
theorem distinct_append_fresh (db : List Booking) (nb : Booking)
    (hdist : DistinctIds db) (hfresh : ∀ b ∈ db, b.id ≠ nb.id) :
    DistinctIds (db ++ [nb]) := by
  unfold DistinctIds at *
  rw [List.pairwise_append]
  refine ⟨hdist, List.pairwise_singleton _ _, ?_⟩
  intro a ha b2 hb2
  rw [List.mem_singleton] at hb2
  subst hb2
  exact hfresh a ha

/-- With distinct primary keys, any member whose id matches a successful
lookup is the looked-up row itself. -/
theorem find_distinct_unique (db : List Booking) (bookingId : Nat)
    (obj b : Booking) (hdist : DistinctIds db)
    (hfind : dbGet db bookingId = some obj) (hb : b ∈ db)
    (hid : b.id = bookingId) : b = obj := by
  revert hdist hfind hb
  induction db with
  | nil =>
    intro _ _ hb
    cases hb
  | cons a l ih =>
    intro hdist hfind hb
    rw [DistinctIds, List.pairwise_cons] at hdist
    unfold dbGet at hfind
    by_cases hpa : (a.id == bookingId) = true
    · simp only [List.find?_cons, hpa] at hfind
      injection hfind with hfind2
      rcases List.mem_cons.mp hb with hba | hbl
      · rw [hba, hfind2]
      · exfalso
        have hne := hdist.1 b hbl
        rw [beq_iff_eq] at hpa
        exact hne (by rw [hpa, hid])
    · simp only [List.find?_cons, hpa] at hfind
      rcases List.mem_cons.mp hb with hba | hbl
      · exfalso
        rw [beq_iff_eq] at hpa
        exact hpa (hba ▸ hid)
      · exact ih hdist.2 hfind hbl

/-- Pointwise preservation of the deadline invariant through an update:
every row the filter selects must satisfy the invariant after `u`. -/
theorem updateRows_deadlineInv (db : List Booking) (c : Booking → Bool)
    (u : Booking → Booking) (hinv : DeadlineInv db)
    (hu : ∀ b ∈ db, c b = true → RowDeadlineInv (u b)) :
    DeadlineInv (updateRows db c u) := by
  intro b2 hb2
  obtain ⟨b, hb, hval⟩ := updateRows_mem db c u b2 hb2
  by_cases hc : c b = true
  · rw [hval, if_pos hc]
    exact hu b hb hc
  · rw [hval, if_neg hc]
    exact hinv b hb

/-- Creation preserves primary-key distinctness and the deadline
discipline: the inserted row is `requested` with no deadline or
`pending_payment` with one. -/
theorem create_booking_inv (props : List Property) (db : List Booking)
    (userId propertyId : Nat) (s e now : Int) (locked : Bool)
    (holdMinutes : Int) (newId : Nat)
    (hfresh : ∀ b ∈ db, b.id ≠ newId)
    (hdist : DistinctIds db) (hinv : DeadlineInv db) :
    DistinctIds (create_booking props db userId propertyId s e now locked
      holdMinutes newId).2 ∧
    DeadlineInv (create_booking props db userId propertyId s e now locked
      holdMinutes newId).2 := by
  unfold create_booking
  split
  · exact ⟨hdist, hinv⟩
  split
  · exact ⟨hdist, hinv⟩
  rename_i prop hprop
  split
  · exact ⟨hdist, hinv⟩
  split
  · exact ⟨hdist, hinv⟩
  by_cases hra : prop.requires_approval = true
  · simp only [hra, eq_self_iff_true, if_true]
    rw [if_neg (by decide)]
    refine ⟨distinct_append_fresh db _ hdist ?_, ?_⟩
    · intro b hb
      simpa using hfresh b hb
    · intro b2 hb2
      rcases List.mem_append.mp hb2 with hb2 | hb2
      · exact hinv b2 hb2
      · rw [List.mem_singleton] at hb2
        subst hb2
        constructor
        · intro _
          rfl
        · intro h
          exact absurd h (by simp)
  · have hra2 : prop.requires_approval = false := by
      simpa using hra
    simp only [hra2, Bool.false_eq_true, if_false, eq_self_iff_true, if_true]
    refine ⟨distinct_append_fresh db _ hdist ?_, ?_⟩
    · intro b hb
      simpa using hfresh b hb
    · intro b2 hb2
      rcases List.mem_append.mp hb2 with hb2 | hb2
      · exact hinv b2 hb2
      · rw [List.mem_singleton] at hb2
        subst hb2
        constructor
        · intro h
          exact absurd h (by simp)
        · intro _
          simp

/-- Approval preserves the invariants: its write keeps ids, sets
`pending_payment`, and installs a fresh deadline. -/
theorem approve_booking_inv (props : List Property) (db : List Booking)
    (bookingId userId : Nat) (now : Int) (locked : Bool) (holdMinutes : Int)
    (hdist : DistinctIds db) (hinv : DeadlineInv db) :
    DistinctIds (approve_booking props db db bookingId userId now locked
      holdMinutes).2 ∧
    DeadlineInv (approve_booking props db db bookingId userId now locked
      holdMinutes).2 := by
  unfold approve_booking
  repeat first
  | exact ⟨hdist, hinv⟩
  | (exact ⟨updateRows_distinct _ _ _ (fun b => rfl) hdist,
      updateRows_deadlineInv _ _ _ hinv (fun b hb hc => by
        constructor
        · intro h
          exact absurd h (by simp)
        · intro _
          simp)⟩)
  | split

/-- Decline preserves the invariants: the declined row was `requested`,
hence (by the invariant itself) already carried no deadline. -/
theorem decline_booking_inv (props : List Property) (db : List Booking)
    (bookingId userId : Nat)
    (hdist : DistinctIds db) (hinv : DeadlineInv db) :
    DistinctIds (decline_booking props db db bookingId userId).2 ∧
    DeadlineInv (decline_booking props db db bookingId userId).2 := by
  unfold decline_booking
  split
  · exact ⟨hdist, hinv⟩
  rename_i obj hget
  split
  · exact ⟨hdist, hinv⟩
  rename_i prop hprop
  split
  · exact ⟨hdist, hinv⟩
  split
  · exact ⟨hdist, hinv⟩
  rename_i hreqne
  have hreq : obj.status = BStatus.requested := not_not.mp hreqne
  have hexp : obj.expires_at = none :=
    (hinv obj (List.mem_of_find?_eq_some hget)).1 (Or.inl hreq)
  have hd2 : DistinctIds (updateRows db (fun b => b.id == bookingId)
      (fun b => { b with status := BStatus.declined,
                         cancel_reason := some "declined",
                         version := verOr1 obj.version + 1 })) :=
    updateRows_distinct _ _ _ (fun b => rfl) hdist
  have hi2 : DeadlineInv (updateRows db (fun b => b.id == bookingId)
      (fun b => { b with status := BStatus.declined,
                         cancel_reason := some "declined",
                         version := verOr1 obj.version + 1 })) := by
    refine updateRows_deadlineInv _ _ _ hinv ?_
    intro b hb hc
    have hbe : b = obj := find_distinct_unique db bookingId obj b hdist hget hb
      (by simpa using hc)
    constructor
    · intro _
      show b.expires_at = none
      rw [hbe]
      exact hexp
    · intro h
      exact absurd h (by simp)
  split <;> exact ⟨hd2, hi2⟩

/-- Cancellation preserves the invariants: the written status `cancelled`
is outside the invariant's scope. -/
theorem cancel_booking_inv (props : List Property) (db : List Booking)
    (bookingId userId : Nat) (role : Role)
    (hdist : DistinctIds db) (hinv : DeadlineInv db) :
    DistinctIds (cancel_booking props db db bookingId userId role).2 ∧
    DeadlineInv (cancel_booking props db db bookingId userId role).2 := by
  unfold cancel_booking
  repeat first
  | exact ⟨hdist, hinv⟩
  | (exact ⟨updateRows_distinct _ _ _ (fun b => rfl) hdist,
      updateRows_deadlineInv _ _ _ hinv (fun b hb hc => by
        constructor
        · intro h
          exact absurd h (by simp)
        · intro h
          exact absurd h (by simp))⟩)
  | split

/-- The sweep preserves the invariants: swept rows become
`cancelled_expired`. -/
theorem sweep_inv (db : List Booking) (now : Int)
    (hdist : DistinctIds db) (hinv : DeadlineInv db) :
    DistinctIds (sweep_expired_bookings db now).2 ∧
    DeadlineInv (sweep_expired_bookings db now).2 := by
  unfold sweep_expired_bookings
  exact ⟨updateRows_distinct _ _ _ (fun b => rfl) hdist,
    updateRows_deadlineInv _ _ _ hinv (fun b hb hc => by
      constructor
      · intro h
        exact absurd h (by simp)
      · intro h
        exact absurd h (by simp))⟩

/-- The payment-info handler preserves the invariants: its writes either
store a payment handle (status and deadline untouched) or confirm via the
conditional update. -/
theorem get_payment_info_inv (db : List Booking) (bookingId userId : Nat)
    (now : Int) (stripeOn : Bool) (piStat : Option PiStatus)
    (hdist : DistinctIds db) (hinv : DeadlineInv db) :
    DistinctIds (get_payment_info db db bookingId userId now stripeOn
      piStat).2 ∧
    DeadlineInv (get_payment_info db db bookingId userId now stripeOn
      piStat).2 := by
  unfold get_payment_info confirmUpdate
  repeat first
  | exact ⟨hdist, hinv⟩
  | (refine ⟨updateRows_distinct _ _ _ (fun b => rfl) hdist,
      updateRows_deadlineInv _ _ _ hinv ?_⟩
     intro b hb hc
     constructor
     · intro h
       refine absurd h ?_
       simp
     · intro h
       refine absurd h ?_
       simp)
  | (refine ⟨updateRows_distinct _ _ _ (fun b => rfl) hdist,
      updateRows_deadlineInv _ _ _ hinv ?_⟩
     intro b hb hc
     constructor
     · intro h
       exact (hinv b hb).1 h
     · intro h
       exact (hinv b hb).2 h)
  | split

/-- The client finalize handler preserves the invariants. -/
theorem finalize_payment_inv (db : List Booking) (bookingId userId : Nat)
    (now : Int) (stripeOn : Bool) (piStat : Option PiStatus)
    (hdist : DistinctIds db) (hinv : DeadlineInv db) :
    DistinctIds (finalize_payment db db bookingId userId now stripeOn
      piStat).2 ∧
    DeadlineInv (finalize_payment db db bookingId userId now stripeOn
      piStat).2 := by
  unfold finalize_payment confirmUpdate
  repeat first
  | exact ⟨hdist, hinv⟩
  | (exact ⟨updateRows_distinct _ _ _ (fun b => rfl) hdist,
      updateRows_deadlineInv _ _ _ hinv (fun b hb hc => by
        constructor
        · intro h
          exact absurd h (by simp)
        · intro h
          exact absurd h (by simp))⟩)
  | split

/-- The webhook handler preserves the invariants. -/
theorem stripe_webhook_inv (db : List Booking) (now : Int)
    (stripeOn secretConfigured sigValid : Bool) (eventType : String)
    (objPresent : Bool) (intentId : Option String)
    (hdist : DistinctIds db) (hinv : DeadlineInv db) :
    DistinctIds (stripe_webhook db db now stripeOn secretConfigured sigValid
      eventType objPresent intentId).2 ∧
    DeadlineInv (stripe_webhook db db now stripeOn secretConfigured sigValid
      eventType objPresent intentId).2 := by
  unfold stripe_webhook confirmUpdate
  cases stripeOn with
  | false => exact ⟨hdist, hinv⟩
  | true =>
    cases secretConfigured with
    | false => exact ⟨hdist, hinv⟩
    | true =>
      cases sigValid with
      | false => exact ⟨hdist, hinv⟩
      | true =>
        simp only [Bool.not_true, Bool.false_eq_true, if_false]
        by_cases hev : eventType = "payment_intent.succeeded" ∧
          objPresent = true
        · rw [if_pos hev]
          repeat first
          | exact ⟨hdist, hinv⟩
          | (refine ⟨updateRows_distinct _ _ _ (fun b => rfl) hdist,
              updateRows_deadlineInv _ _ _ hinv ?_⟩
             intro b hb hc
             constructor
             · intro h
               refine absurd h ?_
               simp
             · intro h
               refine absurd h ?_
               simp)
          | split
        · rw [if_neg hev]
          split <;> exact ⟨hdist, hinv⟩

/-- Both invariants hold in every sequentially reachable state. -/
theorem reach_inv (props : List Property) (db : List Booking)
    (h : Reach props db) : DistinctIds db ∧ DeadlineInv db := by
  induction h with
  | init =>
    exact ⟨List.Pairwise.nil, fun b hb => absurd hb (List.not_mem_nil b)⟩
  | create db userId propertyId s e now locked holdMinutes newId h hfresh ih =>
    exact create_booking_inv props db userId propertyId s e now locked
      holdMinutes newId hfresh ih.1 ih.2
  | approve db bookingId userId now locked holdMinutes h ih =>
    exact approve_booking_inv props db bookingId userId now locked holdMinutes
      ih.1 ih.2
  | decline db bookingId userId h ih =>
    exact decline_booking_inv props db bookingId userId ih.1 ih.2
  | cancel db bookingId userId role h ih =>
    exact cancel_booking_inv props db bookingId userId role ih.1 ih.2
  | sweep db now h ih =>
    exact sweep_inv db now ih.1 ih.2
  | payinfo db bookingId userId now stripeOn piStat h ih =>
    exact get_payment_info_inv db bookingId userId now stripeOn piStat
      ih.1 ih.2
  | finalize db bookingId userId now stripeOn piStat h ih =>
    exact finalize_payment_inv db bookingId userId now stripeOn piStat
      ih.1 ih.2
  | webhook db now stripeOn secretConfigured sigValid eventType objPresent
      intentId h ih =>
    exact stripe_webhook_inv db now stripeOn secretConfigured sigValid
      eventType objPresent intentId ih.1 ih.2

/-- C6 counterexample: a reachable state (create a no-approval booking,
then cancel it) holds a `cancelled` reservation whose hold deadline is
still non-null — cancellation does not clear `expires_at`, contradicting
the claim that only `pending_payment` and `cancelled_expired` rows carry
a deadline. -/
theorem cancelled_keeps_deadline :
    Reach props0 (cancel_booking props0
      (create_booking props0 [] 7 10 0 2 0 true 15 1).2
      (create_booking props0 [] 7 10 0 2 0 true 15 1).2 1 7 Role.tenant).2 ∧
    (dbGet (cancel_booking props0
      (create_booking props0 [] 7 10 0 2 0 true 15 1).2
      (create_booking props0 [] 7 10 0 2 0 true 15 1).2 1 7 Role.tenant).2
      1).map Booking.status = some BStatus.cancelled ∧
    (dbGet (cancel_booking props0
      (create_booking props0 [] 7 10 0 2 0 true 15 1).2
      (create_booking props0 [] 7 10 0 2 0 true 15 1).2 1 7 Role.tenant).2
      1).map Booking.expires_at = some (some 15) := by
  refine ⟨Reach.cancel _ 1 7 Role.tenant
    (Reach.create [] 7 10 0 2 0 true 15 1 Reach.init (by intro b hb; cases hb)),
    by decide, by decide⟩

/-- C6 amended: in every sequentially reachable state, a reservation in
`requested` or `declined` has a null hold deadline and a reservation in
`pending_payment` has a non-null one; reservations in `confirmed`,
`cancelled` or `cancelled_expired` may retain the deadline set while they
were pending, because no transition clears `expires_at`. -/
theorem reach_deadline_inv (props : List Property) (db : List Booking)
    (h : Reach props db) (b : Booking) (hb : b ∈ db) :
    ((b.status = BStatus.requested ∨ b.status = BStatus.declined) →
      b.expires_at = none) ∧
    (b.status = BStatus.pending_payment → b.expires_at ≠ none) :=
  (reach_inv props db h).2 b hb

/-- Witness for C6's amended theorem at the state reached by one
no-approval creation: the pending row carries a deadline. -/
theorem reach_deadline_inv_witness :
    ((bk BStatus.pending_payment 1 (some 15)) ∈
      (create_booking props0 [] 7 10 0 2 0 true 15 1).2) ∧
    ((bk BStatus.pending_payment 1 (some 15)).status =
        BStatus.pending_payment →
      (bk BStatus.pending_payment 1 (some 15)).expires_at ≠ none) :=
  ⟨by decide,
   (reach_deadline_inv props0 _
     (Reach.create [] 7 10 0 2 0 true 15 1 Reach.init (by intro b hb; cases hb))
     (bk BStatus.pending_payment 1 (some 15)) (by decide)).2⟩

end StayCircle
